import Mathlib

/-!
Verification of the tick-orchestration core of `leaderboard`
(`src/leaderboard/scenarios/scenario_manager.py`, class `ScenarioManager`).

The embedding is shallow: the mutable attributes of `ScenarioManager` that the
tick loop and reporter touch become a `ManagerState` record, observable side
effects of one `_tick_scenario` call become an explicit `Event` trace, and the
reporter `_console_message` becomes a pure function from the tree status and a
blackboard snapshot to the list of console lines it prints.  External
collaborators (watchdog thread, CARLA world, behaviour tree) are modelled by
the values the orchestrator reads from them: the watchdog liveness flag is a
boolean in the state, and the tree status resulting from `tick_once` is an
input of each cycle.
-/

namespace Leaderboard

/-- Aggregate py_trees status {RUNNING, SUCCESS, FAILURE}. -/
inductive TreeStatus
  | RUNNING
  | SUCCESS
  | FAILURE
  deriving DecidableEq, Repr

/-- A CARLA snapshot timestamp; only its `elapsed_seconds` field is read.
Elapsed seconds (a float in the source) is modelled as a rational. -/
structure Timestamp where
  elapsed_seconds : ℚ
  deriving DecidableEq, Repr

/-- Observable side effects of one `_tick_scenario` invocation, in the order
the source performs them. -/
inductive Event
  | watchdogUpdate
  | gameTimeTick (t : ℚ)
  | dataProviderTick
  | agentCall
  | treeTick
  | debugPrint
  | spectatorUpdate
  | applyControl
  | worldTick
  deriving DecidableEq, Repr

/-- The mutable attributes of `ScenarioManager` read or written by
`_tick_scenario`, `_signal_handler` and `get_running_status`.
`agent` is whether `self._agent` is not None; `watchdog_alive` is the value
the watchdog thread would report through `get_status()`; `tree_status` is
`self.scenario_tree.status`. -/
structure ManagerState where
  running : Bool
  timestamp_last_run : ℚ
  agent : Bool
  challenge_mode : Bool
  debug_mode : Nat
  watchdog_alive : Bool
  tree_status : TreeStatus
  deriving DecidableEq, Repr

/-- `ScenarioManager._tick_scenario(timestamp)`.  `st` is the aggregate status
the behaviour tree has after `tick_once()` (the tree itself is an external
collaborator).  Returns the new state and the trace of side effects:
the guarded cycle (watchdog refresh, GameTime / data-provider update, agent
call, tree tick, debug print, running-flag update, spectator update, control
application), then the unconditional world-advance check. -/
def tick_scenario (s : ManagerState) (ts : Timestamp) (st : TreeStatus) :
    ManagerState × List Event :=
  let cycle :=
    if s.timestamp_last_run < ts.elapsed_seconds then
      let sA := { s with timestamp_last_run := ts.elapsed_seconds }
      let preEvents := [Event.watchdogUpdate, Event.gameTimeTick ts.elapsed_seconds,
        Event.dataProviderTick]
      let agentEvents := if sA.agent then [Event.agentCall] else []
      let sB := { sA with tree_status := st }
      let debugEvents := if 1 < sB.debug_mode then [Event.debugPrint] else []
      let sC := if sB.tree_status ≠ TreeStatus.RUNNING then { sB with running := false } else sB
      let spectatorEvents := if sC.challenge_mode then [Event.spectatorUpdate] else []
      let controlEvents := if sC.agent then [Event.applyControl] else []
      (sC, preEvents ++ agentEvents ++ [Event.treeTick] ++ debugEvents ++ spectatorEvents
        ++ controlEvents)
    else (s, [])
  let advanceEvents :=
    if cycle.1.agent && cycle.1.running && cycle.1.watchdog_alive then [Event.worldTick] else []
  (cycle.1, cycle.2 ++ advanceEvents)

/-- The `while self._running` loop of `run_scenario`, driven by the sequence of
snapshot timestamps the world produces, paired with the tree status each tick
would yield.  The loop checks the running flag at the top of each iteration. -/
def run_loop (s : ManagerState) : List (Timestamp × TreeStatus) → ManagerState × List Event
  | [] => (s, [])
  | (ts, st) :: rest =>
    if s.running then
      let step := tick_scenario s ts st
      let cont := run_loop step.1 rest
      (cont.1, step.2 ++ cont.2)
    else (s, [])

/-- `ScenarioManager.get_running_status`: returns the watchdog status. -/
def get_running_status (s : ManagerState) : Bool :=
  s.watchdog_alive

/-- `ScenarioManager._signal_handler`: sets `self._running = False`, then
raises `RuntimeError` when `get_running_status()` is false.  The optional
string is the raised error message. -/
def signal_handler (s : ManagerState) : ManagerState × Option String :=
  let s2 := { s with running := false }
  if ¬ get_running_status s2 then
    (s2, some "Timeout occured during scenario execution")
  else
    (s2, none)

/-- Number of occurrences of an event in a trace. -/
def countEvent (e : Event) : List Event → Nat
  | [] => 0
  | x :: xs => (if x = e then 1 else 0) + countEvent e xs

theorem countEvent_append (e : Event) (l₁ l₂ : List Event) :
    countEvent e (l₁ ++ l₂) = countEvent e l₁ + countEvent e l₂ := by
  induction l₁ with
  | nil => simp [countEvent]
  | cons x xs ih => simp [countEvent, ih, Nat.add_assoc]

/-- Verdict messages of `_console_message`, in source order of appearance. -/
inductive Msg
  | deviated
  | didNotFinish
  | finished
  | timedOut
  deriving DecidableEq, Repr

/-- One line printed by `_console_message`.  Score lines carry the pass/fail
symbol (`true` = green tick, `false` = red cross) and the printed value. -/
inductive Line
  | inconclusive
  | verdict (m : Msg)
  | blank
  | scoreHeader
  | scoreRoute (passed : Bool) (value : ℚ)
  | scoreOutside (passed : Bool) (value : ℚ)
  | scoreCollisions (passed : Bool) (value : ℚ)
  | scoreRedLight (passed : Bool) (value : ℚ)
  | scoreStop (passed : Bool) (value : ℚ)
  deriving DecidableEq, Repr

/-- The py_trees blackboard keys `_console_message` reads; `none` models a key
that was never written. -/
structure Blackboard where
  RouteCompletion : Option ℚ
  Collision : Option ℚ
  OutsideRouteLanes : Option ℚ
  RunningStop : Option ℚ
  RunningRedLight : Option ℚ
  InRoute : Option Bool
  deriving DecidableEq, Repr

/-- Result of `_console_message`: the console lines printed, and whether the
call raised (`error = true` models the `TypeError` from comparing an absent
`RouteCompletion` value with 99). -/
structure ReportResult where
  output : List Line
  error : Bool
  deriving DecidableEq, Repr

/-- The nested `get_symbol(value, desired_value, high)` helper: returns the
green tick (`true`) when `multiplier * value >= desired_value`. -/
def get_symbol (value desired_value : ℚ) (high : Bool) : Bool :=
  let multiplier : ℚ := if high then 1 else -1
  if multiplier * value ≥ desired_value then true else false

/-- `ScenarioManager._console_message()`, as a function of the final tree
status and the blackboard snapshot.  Mirrors the source: the RUNNING early
exit, the None check over the five metrics (RouteCompletion is not in that
list), the ≥ 99 clamp, the verdict selection and the score block. -/
def console_message (status : TreeStatus) (bb : Blackboard) : ReportResult :=
  if status = TreeStatus.RUNNING then
    { output := [Line.inconclusive], error := false }
  else
    match bb.Collision, bb.OutsideRouteLanes, bb.RunningStop, bb.RunningRedLight, bb.InRoute with
    | some collisions, some outside_route_lanes, some stop_signs, some red_light, some in_route =>
      match bb.RouteCompletion with
      | none =>
        -- `blackv.get("RouteCompletion") >= 99` with an absent key raises
        { output := [], error := true }
      | some rc =>
        let route_completed : ℚ := if rc ≥ 99 then 100 else rc
        let route_symbol := get_symbol route_completed 100 true
        let collision_symbol := get_symbol collisions 0 false
        let outside_symbol := get_symbol outside_route_lanes 0 false
        let red_light_symbol := get_symbol red_light 0 false
        let stop_symbol := get_symbol stop_signs 0 false
        let message : Msg :=
          if status = TreeStatus.FAILURE then
            if in_route = false then Msg.deviated else Msg.didNotFinish
          else
            if route_completed = 100 then Msg.finished else Msg.timedOut
        { output := [Line.verdict message, Line.blank, Line.scoreHeader,
            Line.scoreRoute route_symbol route_completed,
            Line.scoreOutside outside_symbol outside_route_lanes,
            Line.scoreCollisions collision_symbol collisions,
            Line.scoreRedLight red_light_symbol red_light,
            Line.scoreStop stop_symbol stop_signs],
          error := false }
    | _, _, _, _, _ => { output := [], error := false }

/-- `_console_message` with the state it can read (tree status and blackboard)
threaded explicitly: the method only reads — every statement is a `get` or a
local binding — so the state comes back unchanged. -/
def console_message_call (status : TreeStatus) (bb : Blackboard) :
    (TreeStatus × Blackboard) × ReportResult :=
  ((status, bb), console_message status bb)

theorem get_symbol_high (v d : ℚ) : get_symbol v d true = decide (d ≤ v) := by
  by_cases h : d ≤ v <;> simp [get_symbol, h]

theorem get_symbol_low (v d : ℚ) : get_symbol v d false = decide (d ≤ -v) := by
  by_cases h : d ≤ -v <;> simp [get_symbol, neg_one_mul, h]

/-- C1: a tick cycle (watchdog refresh, clock update, agent step, tree tick,
command application) runs exactly when the observed elapsed-seconds is
strictly greater than the last processed value; when it runs the stored
last-processed value becomes the new elapsed-seconds, and a duplicate or
regressed timestamp leaves the whole state unchanged. -/
theorem tick_only_on_strictly_newer (s : ManagerState) (ts : Timestamp) (st : TreeStatus) :
    (Event.watchdogUpdate ∈ (tick_scenario s ts st).2 ↔
        s.timestamp_last_run < ts.elapsed_seconds)
    ∧ (Event.treeTick ∈ (tick_scenario s ts st).2 ↔ s.timestamp_last_run < ts.elapsed_seconds)
    ∧ (tick_scenario s ts st).1.timestamp_last_run =
        (if s.timestamp_last_run < ts.elapsed_seconds then ts.elapsed_seconds
         else s.timestamp_last_run)
    ∧ (¬ s.timestamp_last_run < ts.elapsed_seconds → (tick_scenario s ts st).1 = s) := by
  unfold tick_scenario
  by_cases h : s.timestamp_last_run < ts.elapsed_seconds
  · simp only [h, if_true]
    split_ifs <;> simp_all
  · simp only [h, if_false]
    split_ifs <;> simp_all

/-- C1 witness: on a duplicate timestamp (elapsed 5 with last-processed 5)
the state is unchanged. -/
theorem tick_only_on_strictly_newer_witness :
    (¬ (5:ℚ) < 5)
    ∧ (tick_scenario ⟨true, 5, true, false, 0, true, TreeStatus.RUNNING⟩ ⟨5⟩
        TreeStatus.RUNNING).1 = ⟨true, 5, true, false, 0, true, TreeStatus.RUNNING⟩ :=
  ⟨by decide,
    (tick_only_on_strictly_newer ⟨true, 5, true, false, 0, true, TreeStatus.RUNNING⟩ ⟨5⟩
      TreeStatus.RUNNING).2.2.2 (by decide)⟩

/-- C2 counterexample: starting from a running state with an agent and a live
watchdog, feeding the timestamps 1, 1 issues two world advances although only
one strictly-new timestamp was processed (one watchdog refresh): the advance
at the end of `_tick_scenario` is outside the strictly-newer guard, so a
duplicate timestamp also advances the external clock. -/
theorem world_advance_not_once_per_new_timestamp :
    countEvent Event.worldTick
        (run_loop ⟨true, 0, true, false, 0, true, TreeStatus.RUNNING⟩
          [(⟨1⟩, TreeStatus.RUNNING), (⟨1⟩, TreeStatus.RUNNING)]).2 = 2
    ∧ countEvent Event.watchdogUpdate
        (run_loop ⟨true, 0, true, false, 0, true, TreeStatus.RUNNING⟩
          [(⟨1⟩, TreeStatus.RUNNING), (⟨1⟩, TreeStatus.RUNNING)]).2 = 1 := by
  decide

/-- C2 (amended): each `_tick_scenario` invocation advances the external clock
exactly once when an agent is attached, the running flag is still true after
the cycle, and the watchdog is alive — and never otherwise; in particular it
is never advanced with the running flag false, the watchdog expired, or no
agent attached, but it is advanced on duplicate timestamps too. -/
theorem tick_world_advance_guard (s : ManagerState) (ts : Timestamp) (st : TreeStatus) :
    countEvent Event.worldTick (tick_scenario s ts st).2 =
      (if s.agent && (tick_scenario s ts st).1.running && s.watchdog_alive then 1 else 0) := by
  unfold tick_scenario
  by_cases hlt : s.timestamp_last_run < ts.elapsed_seconds <;>
    by_cases hst : st = TreeStatus.RUNNING <;>
      simp [hlt, hst, countEvent_append, apply_ite (countEvent Event.worldTick), countEvent]

/-- C3: with a terminal tree status, if any required metric (including route
completion) is absent from the blackboard snapshot, the reporter prints
nothing at all — no verdict and no score block. -/
theorem report_missing_metric_no_output (status : TreeStatus) (bb : Blackboard)
    (hterm : status ≠ TreeStatus.RUNNING)
    (hmiss : bb.RouteCompletion = none ∨ bb.Collision = none ∨ bb.OutsideRouteLanes = none
      ∨ bb.RunningStop = none ∨ bb.RunningRedLight = none ∨ bb.InRoute = none) :
    (console_message status bb).output = [] := by
  obtain ⟨rcO, colO, outO, stopO, redO, inrO⟩ := bb
  unfold console_message
  rw [if_neg hterm]
  cases colO <;> cases outO <;> cases stopO <;> cases redO <;> cases inrO <;> cases rcO <;>
    simp_all

/-- C3 witness: terminal FAILURE with `InRoute` never written prints nothing. -/
theorem report_missing_metric_witness :
    (console_message TreeStatus.FAILURE
      ⟨some 50, some 1, some 0, some 0, some 0, none⟩).output = [] :=
  report_missing_metric_no_output TreeStatus.FAILURE
    ⟨some 50, some 1, some 0, some 0, some 0, none⟩ (by decide)
    (Or.inr (Or.inr (Or.inr (Or.inr (Or.inr rfl)))))

/-- C4: with all required metrics present and a terminal status, the reporter
does not fail, clamps route completion to 100 once it is at least 99, and
derives the verdict: FAILURE off-route → deviated, FAILURE in-route →
did-not-finish, SUCCESS with clamped completion 100 → finished, SUCCESS with
clamped completion below 100 → timed out (despite the SUCCESS status); the
score line shows the clamped completion with its pass/fail symbol. -/
theorem report_verdict_and_clamp (status : TreeStatus) (bb : Blackboard)
    (rc collisions outside stop_signs red_light : ℚ) (in_route : Bool)
    (h1 : bb.RouteCompletion = some rc) (h2 : bb.Collision = some collisions)
    (h3 : bb.OutsideRouteLanes = some outside) (h4 : bb.RunningStop = some stop_signs)
    (h5 : bb.RunningRedLight = some red_light) (h6 : bb.InRoute = some in_route)
    (hterm : status ≠ TreeStatus.RUNNING) :
    (console_message status bb).error = false
    ∧ Line.verdict
        (if status = TreeStatus.FAILURE then
          (if in_route then Msg.didNotFinish else Msg.deviated)
        else (if (if rc ≥ 99 then (100:ℚ) else rc) = 100 then Msg.finished else Msg.timedOut))
        ∈ (console_message status bb).output
    ∧ Line.scoreRoute (get_symbol (if rc ≥ 99 then (100:ℚ) else rc) 100 true)
        (if rc ≥ 99 then (100:ℚ) else rc) ∈ (console_message status bb).output := by
  obtain ⟨rcO, colO, outO, stopO, redO, inrO⟩ := bb
  simp only at h1 h2 h3 h4 h5 h6
  subst h1 h2 h3 h4 h5 h6
  unfold console_message
  rw [if_neg hterm]
  cases status <;> cases in_route <;> simp_all

/-- C4 witness: the spec scenario — completion 97, all other metrics clean,
in-route, terminal SUCCESS — is reported as timed out with the completion
symbol failing. -/
theorem report_verdict_clamp_witness :
    (console_message TreeStatus.SUCCESS
        ⟨some 97, some 0, some 0, some 0, some 0, some true⟩).error = false
    ∧ Line.verdict Msg.timedOut ∈ (console_message TreeStatus.SUCCESS
        ⟨some 97, some 0, some 0, some 0, some 0, some true⟩).output
    ∧ Line.scoreRoute false (97:ℚ) ∈ (console_message TreeStatus.SUCCESS
        ⟨some 97, some 0, some 0, some 0, some 0, some true⟩).output := by
  have h := report_verdict_and_clamp TreeStatus.SUCCESS
    ⟨some 97, some 0, some 0, some 0, some 0, some true⟩ 97 0 0 0 0 true
    rfl rfl rfl rfl rfl rfl (by decide)
  have e1 : ¬ ((97:ℚ) ≥ 99) := by decide
  have e2 : ¬ ((97:ℚ) = 100) := by decide
  have e3 : get_symbol (97:ℚ) 100 true = false := by
    rw [get_symbol_high]
    decide
  simp only [e1, e2, e3, if_neg, if_false, reduceIte] at h
  exact h

/-- C5: the cancellation handler always clears the running flag; it raises the
fatal timeout error exactly when the watchdog has already expired, and returns
cleanly when the watchdog is still alive. -/
theorem signal_handler_spec (s : ManagerState) :
    signal_handler s =
      ({ s with running := false },
        if s.watchdog_alive then none else some "Timeout occured during scenario execution") := by
  unfold signal_handler get_running_status
  cases h : s.watchdog_alive <;> simp [h]

/-- C6 counterexample: in challenge mode, a cycle whose tree status leaves
RUNNING still performs the spectator update — the claim that step 6 is
skipped for that cycle is false: the source guards the spectator update only
on challenge mode, not on the tree status or the running flag. -/
theorem spectator_not_skipped_on_terminal :
    ((tick_scenario ⟨true, 0, true, true, 0, true, TreeStatus.RUNNING⟩ ⟨1⟩
        TreeStatus.SUCCESS).1.running = false)
    ∧ Event.spectatorUpdate ∈ (tick_scenario ⟨true, 0, true, true, 0, true, TreeStatus.RUNNING⟩
        ⟨1⟩ TreeStatus.SUCCESS).2 := by
  decide

/-- C6 (amended): within a processed cycle whose tree status has left RUNNING,
the running flag is flipped to false and the agent control command is still
applied when an agent is attached; the spectator update is not skipped — it
happens exactly when challenge mode is enabled. -/
theorem terminal_status_cycle_effects (s : ManagerState) (ts : Timestamp) (st : TreeStatus)
    (hnew : s.timestamp_last_run < ts.elapsed_seconds) (hterm : st ≠ TreeStatus.RUNNING) :
    (tick_scenario s ts st).1.running = false
    ∧ (Event.spectatorUpdate ∈ (tick_scenario s ts st).2 ↔ s.challenge_mode = true)
    ∧ (Event.applyControl ∈ (tick_scenario s ts st).2 ↔ s.agent = true) := by
  unfold tick_scenario
  simp only [hnew, if_true, hterm, ne_eq, not_false_iff]
  split_ifs <;> simp_all

/-- C6 amended witness: a terminal FAILURE cycle in challenge mode without an
agent clears the running flag, performs the spectator update, and applies no
control. -/
theorem terminal_status_cycle_effects_witness :
    ((tick_scenario ⟨true, 0, false, true, 0, true, TreeStatus.RUNNING⟩ ⟨1⟩
        TreeStatus.FAILURE).1.running = false)
    ∧ (Event.spectatorUpdate ∈ (tick_scenario ⟨true, 0, false, true, 0, true,
        TreeStatus.RUNNING⟩ ⟨1⟩ TreeStatus.FAILURE).2 ↔
      (⟨true, 0, false, true, 0, true, TreeStatus.RUNNING⟩ : ManagerState).challenge_mode = true)
    ∧ (Event.applyControl ∈ (tick_scenario ⟨true, 0, false, true, 0, true,
        TreeStatus.RUNNING⟩ ⟨1⟩ TreeStatus.FAILURE).2 ↔
      (⟨true, 0, false, true, 0, true, TreeStatus.RUNNING⟩ : ManagerState).agent = true) :=
  terminal_status_cycle_effects ⟨true, 0, false, true, 0, true, TreeStatus.RUNNING⟩ ⟨1⟩
    TreeStatus.FAILURE (by decide) (by decide)

/-- C7: a cycle on a strictly newer timestamp with an agent attached performs,
in this order: watchdog refresh, clock update, data-provider refresh, agent
invocation, exactly one tree tick, the optional debug and spectator side
effects, and only then the control application, followed by the optional world
advance. -/
theorem cycle_step_order (s : ManagerState) (ts : Timestamp) (st : TreeStatus)
    (hnew : s.timestamp_last_run < ts.elapsed_seconds) (hagent : s.agent = true) :
    (tick_scenario s ts st).2 =
      [Event.watchdogUpdate, Event.gameTimeTick ts.elapsed_seconds, Event.dataProviderTick,
        Event.agentCall, Event.treeTick]
        ++ (if 1 < s.debug_mode then [Event.debugPrint] else [])
        ++ (if s.challenge_mode then [Event.spectatorUpdate] else [])
        ++ [Event.applyControl]
        ++ (if s.agent && (tick_scenario s ts st).1.running && s.watchdog_alive
              then [Event.worldTick] else [])
    ∧ countEvent Event.treeTick (tick_scenario s ts st).2 = 1 := by
  unfold tick_scenario
  by_cases hst : st = TreeStatus.RUNNING <;>
    simp [hnew, hst, hagent, countEvent_append, apply_ite (countEvent Event.treeTick),
      countEvent]

/-- C7 witness: a concrete cycle (debug level 2, challenge mode, agent, live
watchdog, tree still RUNNING) produces the full ordered trace with one tree
tick. -/
theorem cycle_step_order_witness :
    (tick_scenario ⟨true, 0, true, true, 2, true, TreeStatus.RUNNING⟩ ⟨1⟩ TreeStatus.RUNNING).2 =
      [Event.watchdogUpdate, Event.gameTimeTick 1, Event.dataProviderTick, Event.agentCall,
        Event.treeTick, Event.debugPrint, Event.spectatorUpdate, Event.applyControl,
        Event.worldTick]
    ∧ countEvent Event.treeTick
        (tick_scenario ⟨true, 0, true, true, 2, true, TreeStatus.RUNNING⟩ ⟨1⟩
          TreeStatus.RUNNING).2 = 1 := by
  have h := cycle_step_order ⟨true, 0, true, true, 2, true, TreeStatus.RUNNING⟩ ⟨1⟩
    TreeStatus.RUNNING (by decide) rfl
  exact ⟨h.1.trans (by decide), h.2⟩

/-- C8: when the final tree status is still RUNNING the reporter prints only
the inconclusive notice and no score; the result is the same for every
blackboard, so no metric is read. -/
theorem report_running_inconclusive (bb : Blackboard) :
    console_message TreeStatus.RUNNING bb = { output := [Line.inconclusive], error := false } :=
  rfl

/-- C9: invoking the reporter twice on the same final status and snapshot
yields the same output both times, and the state it reads (tree status and
blackboard) is returned unchanged by each call. -/
theorem report_idempotent (status : TreeStatus) (bb : Blackboard) :
    (console_message_call (console_message_call status bb).1.1
        (console_message_call status bb).1.2).2 = (console_message_call status bb).2
    ∧ (console_message_call (console_message_call status bb).1.1
        (console_message_call status bb).1.2).1 = (console_message_call status bb).1 :=
  ⟨rfl, rfl⟩

/-- C10: `get_running_status` returns exactly the watchdog liveness flag: it
is invariant under any change of the running flag, returns true in a state
whose loop flag is already false, and false in a state whose loop flag is
still true. -/
theorem get_running_status_watchdog_only (s : ManagerState) :
    get_running_status s = s.watchdog_alive
    ∧ (∀ r : Bool, get_running_status { s with running := r } = get_running_status s)
    ∧ get_running_status ⟨false, 0, false, false, 0, true, TreeStatus.RUNNING⟩ = true
    ∧ get_running_status ⟨true, 0, false, false, 0, false, TreeStatus.RUNNING⟩ = false :=
  ⟨rfl, fun _ => rfl, rfl, rfl⟩

end Leaderboard
